import Mathlib

/-!
# Verification of the QOnCommand device-protocol core

Shallow embedding of the QOnCommand server (`server.js`): the shared OSC
transport's reply-correlation engine (`globalOSCCallbacks`,
`sendOSCMessage`, `handleGlobalOSCMessage`), the workspace connection pool
(`workspacePool`, `getOrCreateWorkspaceConnection`, `addClientToWorkspace`,
`removeClientFromWorkspace`), the per-cue-info caches of `QLabOSCClient`
and the command methods of `QLabClientWrapper`, the selection debounce
(`skipToCue`), the session grace-period cleanup of the socket disconnect
handler, and the `GET /api/cues` route.  Each definition is translated from
the corresponding JavaScript; theorems at the end settle the
specification's claims about them.
-/

namespace QOnCommand

/-! ## JavaScript primitives

JS `Map` preserves insertion order; `set` on an existing key updates the
value in place (the key keeps its original position) and otherwise appends;
`Array.from(map.entries())[0]` is therefore the oldest live entry.  We model
a `Map` as an association list. -/

/-- JS `Map.prototype.set`: update in place when the key is present,
preserving its position in iteration order; otherwise append. -/
def jsMapSet {α β : Type} [DecidableEq α] (m : List (α × β)) (k : α) (v : β) :
    List (α × β) :=
  if m.any (fun p => p.1 = k) then
    m.map (fun p => if p.1 = k then (k, v) else p)
  else m ++ [(k, v)]

/-- JS `Map.prototype.delete`. -/
def jsMapDelete {α β : Type} [DecidableEq α] (m : List (α × β)) (k : α) :
    List (α × β) :=
  m.filter (fun p => p.1 ≠ k)

/-- JS `Map.prototype.has`. -/
def jsMapHas {α β : Type} [DecidableEq α] (m : List (α × β)) (k : α) : Bool :=
  m.any (fun p => p.1 = k)

/-- JS `Map.prototype.get`, as an `Option`. -/
def jsMapGet {α β : Type} [DecidableEq α] (m : List (α × β)) (k : α) :
    Option β :=
  (m.find? (fun p => p.1 = k)).map Prod.snd

/-- Truthiness of a string-valued JS variable that may be `null`/absent:
`null`, `undefined` and `""` are falsy. -/
def jsTruthyStr : Option String → Bool
  | none => false
  | some s => s ≠ ""

/-- JS `a || b` for a string-or-absent `a` with a string default `b`. -/
def jsOrStr (a : Option String) (b : String) : String :=
  match a with
  | some s => if s = "" then b else s
  | none => b

/-! ## Reply correlation

`sendOSCMessage(address, args, true)` allocates
`const callbackId = ++this.callbackIdCounter` — a counter owned by the
individual `QLabOSCClient` instance — and registers the resolver in the
process-wide `globalOSCCallbacks.set(callbackId, callbackFn)`.
`handleGlobalOSCMessage` settles the first entry of the shared map on every
`/reply` message. -/

/-- Identity of one in-flight reply-expecting send: the issuing
`QLabOSCClient` instance and the value that instance's `callbackIdCounter`
had at the send.  Settling this identity means settling that send's
promise. -/
structure PendingId where
  client : Nat
  seq : Nat
deriving DecidableEq, Repr

/-- State of the shared transport: every client instance's
`callbackIdCounter`, the shared `globalOSCCallbacks` map, and the log of
reply-expecting sends in issue order (the still-unsettled calls, none having
been settled yet in the runs we examine). -/
structure OSCSys where
  counters : Nat → Nat
  callbacks : List (Nat × PendingId)
  pendingLog : List PendingId

/-- Initial transport state: fresh counters, empty callback map, no
pending calls. -/
def oscInit : OSCSys :=
  { counters := fun _ => 0, callbacks := [], pendingLog := [] }

/-- A reply-expecting `sendOSCMessage` by client instance `c`:
`callbackId = ++this.callbackIdCounter` then
`globalOSCCallbacks.set(callbackId, callbackFn)`. -/
def clientSend (s : OSCSys) (c : Nat) : OSCSys :=
  let cbId := s.counters c + 1
  { counters := fun i => if i = c then cbId else s.counters i
    callbacks := jsMapSet s.callbacks cbId ⟨c, cbId⟩
    pendingLog := s.pendingLog ++ [⟨c, cbId⟩] }

/-- `n` reply-expecting sends in sequence, all by client instance `c`. -/
def sendMany (c : Nat) : Nat → OSCSys → OSCSys
  | 0, s => s
  | n + 1, s => clientSend (sendMany c n s) c

/-- The `/reply` branch of `handleGlobalOSCMessage`: take the first entry
of `globalOSCCallbacks` (`Array.from(globalOSCCallbacks.entries())[0]`),
delete its key, and invoke the stored callback, settling that pending call;
with no entry waiting the reply is dropped.  Returns the updated map and
the call settled, if any. -/
def handleReply (m : List (Nat × PendingId)) :
    List (Nat × PendingId) × Option PendingId :=
  match m with
  | [] => ([], none)
  | (k, p) :: _ => (jsMapDelete m k, some p)

/-- Deliver `n` in-order inbound replies, collecting the pending calls
they settle in delivery order. -/
def drainReplies (m : List (Nat × PendingId)) : Nat → List PendingId
  | 0 => []
  | n + 1 =>
    match handleReply m with
    | (_, none) => []
    | (m', some p) => p :: drainReplies m' n

/-- The 10-second timeout handler installed by `sendOSCMessage` for the
pending call `p` registered under `callbackId` `k`: when
`globalOSCCallbacks.has(k)` the entry is deleted and `p`'s promise is
rejected with a timeout error; otherwise nothing settles. -/
def timeoutFire (m : List (Nat × PendingId)) (k : Nat) (p : PendingId) :
    List (Nat × PendingId) × Option PendingId :=
  if jsMapHas m k then (jsMapDelete m k, some p) else (m, none)

/-! ## Workspace connection pool

`workspacePool` maps workspace id to
`{ client, refCount, clients: Set(), instanceInfo }`.  We identify each
constructed `QLabClientWrapper` by a construction number and track the
total number of constructions and the wrappers released through
`cleanup()`.  (The `instanceInfo` payload is carried along unchanged by
every pool operation and is omitted.) -/

/-- One `workspacePool` entry as built by `getOrCreateWorkspaceConnection`:
the wrapper's construction number, the `refCount`, and the `clients` set
(as a duplicate-free list in insertion order). -/
structure PoolEntry where
  client : Nat
  refCount : Int
  clients : List String
deriving DecidableEq, Repr

/-- Pool-side server state: the `workspacePool` map, the number of
`QLabClientWrapper` constructions so far, and the wrappers already released
through `cleanup()`, in release order. -/
structure PoolState where
  workspacePool : List (String × PoolEntry)
  constructed : Nat
  released : List Nat
deriving DecidableEq, Repr

/-- Fresh server: empty pool, nothing constructed or released. -/
def poolInit : PoolState :=
  { workspacePool := [], constructed := 0, released := [] }

/-- `workspacePool.get(workspaceId)`. -/
def poolLookup (s : PoolState) (wid : String) : Option PoolEntry :=
  jsMapGet s.workspacePool wid

/-- `getOrCreateWorkspaceConnection(workspaceId, instanceInfo)` with a
reachable device: when the id is absent, a new `QLabClientWrapper` is
constructed and an entry `{ client, refCount: 0, clients: new Set() }` is
inserted; when present, the existing entry is returned untouched. -/
def getOrCreateWorkspaceConnection (s : PoolState) (wid : String) :
    PoolState :=
  match poolLookup s wid with
  | some _ => s
  | none =>
    { workspacePool := s.workspacePool ++ [(wid, ⟨s.constructed, 0, []⟩)]
      constructed := s.constructed + 1
      released := s.released }

/-- `addClientToWorkspace(clientId, workspaceId)`: when the entry exists,
`poolEntry.clients.add(clientId)` and `poolEntry.refCount++`; otherwise a
no-op. -/
def addClientToWorkspace (s : PoolState) (cid : String) (wid : String) :
    PoolState :=
  { s with
    workspacePool := s.workspacePool.map (fun q =>
      if q.1 = wid then
        (q.1, { q.2 with
                clients := if cid ∈ q.2.clients then q.2.clients
                           else q.2.clients ++ [cid]
                refCount := q.2.refCount + 1 })
      else q) }

/-- `removeClientFromWorkspace(clientId, workspaceId)`: when the entry
exists, `clients.delete(clientId)` and `refCount--`; when the count reaches
`<= 0` the wrapper's `cleanup()` is called and the entry is deleted from
`workspacePool`. -/
def removeClientFromWorkspace (s : PoolState) (cid : String)
    (wid : String) : PoolState :=
  match poolLookup s wid with
  | none => s
  | some e =>
    if e.refCount - 1 ≤ 0 then
      { workspacePool := s.workspacePool.filter (fun q => q.1 ≠ wid)
        constructed := s.constructed
        released := s.released ++ [e.client] }
    else
      { s with
        workspacePool := s.workspacePool.map (fun q =>
          if q.1 = wid then
            (wid, ⟨e.client, e.refCount - 1,
              e.clients.filter (fun x => x ≠ cid)⟩)
          else q) }

/-- One session attach as performed by the `/api/connect/:instanceId` and
`/api/connect_direct` routes: `getOrCreateWorkspaceConnection` followed by
`addClientToWorkspace`. -/
def attach (s : PoolState) (cid : String) (wid : String) : PoolState :=
  addClientToWorkspace (getOrCreateWorkspaceConnection s wid) cid wid

/-- Attach each session of `cids`, in order, to workspace `wid`. -/
def attachList (s : PoolState) (wid : String) : List String → PoolState
  | [] => s
  | cid :: rest => attachList (attach s cid wid) wid rest

/-- Detach each session of `cids`, in order, from workspace `wid`. -/
def detachList (s : PoolState) (wid : String) : List String → PoolState
  | [] => s
  | cid :: rest => detachList (removeClientFromWorkspace s cid wid) wid rest

/-! ## `QLabOSCClient` cue getters and per-cue-info cache

`getSelectedCue`, `getActiveCue` and `getNextCue` are read-through caches
over one OSC round-trip each (`getNextCue` additionally calls
`getSelectedCue` and fetches the cue lists).  Each awaited round-trip is
passed in as an `Except`-valued oracle: `Except.error` is a rejection
(10-second timeout, or QLab answering a non-`ok` status), `Except.ok` the
parsed reply `data`. -/

/-- Normalized cue info `{id, number, name, type}` as produced by the
getters.  The neutral placeholder objects carry no `id` property, modelled
as `none`. -/
structure Cue where
  id : Option String
  number : String
  name : String
  type : String
deriving DecidableEq, Repr

/-- Raw cue dictionary decoded from a QLab JSON reply; properties absent
from the payload are `none`. -/
structure CueRecord where
  uniqueID : Option String
  number : Option String
  listName : Option String
  displayName : Option String
  name : Option String
  type : Option String
deriving DecidableEq, Repr

/-- One element of a `/cueLists` reply; `getNextCue` reads only its
`cues` array (`none` when the property is absent or not an array). -/
structure CueListRecord where
  cues : Option (List CueRecord)
deriving DecidableEq, Repr

/-- The parsed `data` of a `valuesForKeys` reply: QLab may send a single
object or an array; `none` stands for a falsy `result`. -/
inductive SelReply
  | obj (r : CueRecord)
  | arr (l : List CueRecord)
deriving DecidableEq, Repr

/-- The per-cue-info cache fields of `QLabOSCClient`. -/
structure OSCClientCache where
  selectedCueCache : Option Cue
  activeCueCache : Option Cue
  nextCueCache : Option Cue
  lastSelectedUpdate : Nat
  lastActiveUpdate : Nat
  lastNextUpdate : Nat
deriving DecidableEq, Repr

/-- `this.cacheTimeout = 1000` (milliseconds). -/
def cacheTimeout : Nat := 1000

/-- The hard staleness ceiling used by the catch-blocks of
`getSelectedCue` and `getNextCue`: `10000` milliseconds. -/
def hardCeilingMs : Nat := 10000

/-- A fresh `QLabOSCClient`'s cache fields (`null` caches, timestamps 0). -/
def emptyCache : OSCClientCache :=
  { selectedCueCache := none, activeCueCache := none, nextCueCache := none
    lastSelectedUpdate := 0, lastActiveUpdate := 0, lastNextUpdate := 0 }

/-- `QLabOSCClient.invalidateCache()`: null out the three per-cue-info
caches and zero their timestamps. -/
def invalidateCache (st : OSCClientCache) : OSCClientCache :=
  { st with
    selectedCueCache := none, activeCueCache := none, nextCueCache := none
    lastSelectedUpdate := 0, lastActiveUpdate := 0, lastNextUpdate := 0 }

/-- The `{number: '--', name: 'No selection', type: 'unknown'}`
placeholder. -/
def noSelectionCue : Cue :=
  { id := none, number := "--", name := "No selection", type := "unknown" }

/-- The `{number: '--', name: 'End of list', type: 'unknown'}`
placeholder. -/
def endOfListCue : Cue :=
  { id := none, number := "--", name := "End of list", type := "unknown" }

/-- The `{number: '--', name: 'No next cue', type: 'unknown'}`
placeholder. -/
def noNextCue : Cue :=
  { id := none, number := "--", name := "No next cue", type := "unknown" }

/-- The `{number: '--', name: 'Not available', type: 'unknown'}`
placeholder of `getActiveCue`'s catch-block. -/
def notAvailableCue : Cue :=
  { id := none, number := "--", name := "Not available", type := "unknown" }

/-- The object-or-array normalization of `getSelectedCue`: a non-empty
array uses its first element; a direct object is used when one of
`uniqueID`, `number`, `name`, `listName` is truthy; anything else yields
no cue. -/
def pickSelected : Option SelReply → Option CueRecord
  | none => none
  | some (.arr l) => if l.length > 0 then l.head? else none
  | some (.obj r) =>
    if jsTruthyStr r.uniqueID || jsTruthyStr r.number || jsTruthyStr r.name
        || jsTruthyStr r.listName then some r
    else none

/-- `getSelectedCue`'s `{id, number, name, type}` construction from a raw
cue record. -/
def normSelected (r : CueRecord) : Cue :=
  { id := some (jsOrStr r.uniqueID "")
    number := jsOrStr r.number "--"
    name := jsOrStr r.listName (jsOrStr r.displayName
        (jsOrStr r.name "No selection"))
    type := jsOrStr r.type "unknown" }

/-- `getNextCue`'s normalization of the subsequent cue-list entry. -/
def normNext (r : CueRecord) : Cue :=
  { id := some (jsOrStr r.uniqueID "")
    number := jsOrStr r.number "--"
    name := jsOrStr r.listName (jsOrStr r.name "Next Cue")
    type := jsOrStr r.type "unknown" }

/-- `getActiveCue`'s normalization of the first running cue. -/
def normActive (r : CueRecord) : Cue :=
  { id := some (jsOrStr r.uniqueID "")
    number := jsOrStr r.number "--"
    name := jsOrStr r.listName (jsOrStr r.name "Running Cue")
    type := jsOrStr r.type "unknown" }

/-- The try-body of `getSelectedCue` past the cache check, plus its
catch-block.  On success the (possibly placeholder) result is written to
the cache; on failure the cache is served when younger than 10 seconds,
otherwise the neutral placeholder, and the cache is left untouched.  The
third component records that a live fetch was attempted. -/
def getSelectedCueLive (st : OSCClientCache) (now : Nat)
    (live : Except Unit (Option SelReply)) : Cue × OSCClientCache × Bool :=
  match live with
  | .ok result =>
    let cueData :=
      match pickSelected result with
      | some r => normSelected r
      | none => noSelectionCue
    (cueData,
      { st with selectedCueCache := some cueData, lastSelectedUpdate := now },
      true)
  | .error _ =>
    match st.selectedCueCache with
    | some c =>
      if now - st.lastSelectedUpdate < hardCeilingMs then (c, st, true)
      else (noSelectionCue, st, true)
    | none => (noSelectionCue, st, true)

/-- `QLabOSCClient.getSelectedCue()`: serve the cache while
`now - lastSelectedUpdate < cacheTimeout`, otherwise go live. -/
def getSelectedCue (st : OSCClientCache) (now : Nat)
    (live : Except Unit (Option SelReply)) : Cue × OSCClientCache × Bool :=
  match st.selectedCueCache with
  | some c =>
    if now - st.lastSelectedUpdate < cacheTimeout then (c, st, false)
    else getSelectedCueLive st now live
  | none => getSelectedCueLive st now live

/-- The try-body of `getActiveCue` past the cache check, plus its
catch-block: the catch returns the fixed `Not available` placeholder and
never consults the cache. -/
def getActiveCueLive (st : OSCClientCache) (now : Nat)
    (live : Except Unit (Option (List CueRecord))) :
    Cue × OSCClientCache × Bool :=
  match live with
  | .ok result =>
    let cueData :=
      match result with
      | some (r :: _) => normActive r
      | _ =>
        { id := none, number := "--", name := "No active cue"
          type := "unknown" }
    (cueData,
      { st with activeCueCache := some cueData, lastActiveUpdate := now },
      true)
  | .error _ => (notAvailableCue, st, true)

/-- `QLabOSCClient.getActiveCue()`. -/
def getActiveCue (st : OSCClientCache) (now : Nat)
    (live : Except Unit (Option (List CueRecord))) :
    Cue × OSCClientCache × Bool :=
  match st.activeCueCache with
  | some c =>
    if now - st.lastActiveUpdate < cacheTimeout then (c, st, false)
    else getActiveCueLive st now live
  | none => getActiveCueLive st now live

/-- The try-body of `getNextCue` past the cache check, plus its
catch-block.  It first awaits `getSelectedCue` (which never throws); when
the selected cue's `id` is falsy the `No selection` placeholder is cached
and returned.  Otherwise it awaits the `/cueLists` round-trip: on success
it looks the selected id up in the first list's `cues` via `findIndex` and
returns the normalized subsequent entry when `currentIndex !== -1 &&
currentIndex < cues.length - 1`, else the cached `End of list`
placeholder; a rejection reaches the catch-block, which serves the
next-cue cache when younger than 10 seconds and the `No next cue`
placeholder otherwise. -/
def getNextCueLive (st : OSCClientCache) (now : Nat)
    (liveSel : Except Unit (Option SelReply))
    (liveLists : Except Unit (Option (List CueListRecord))) :
    Cue × OSCClientCache × Bool :=
  let sel := getSelectedCue st now liveSel
  let selectedCue := sel.1
  let st1 := sel.2.1
  if jsTruthyStr selectedCue.id = false then
    (noSelectionCue,
      { st1 with nextCueCache := some noSelectionCue, lastNextUpdate := now },
      true)
  else
    match liveLists with
    | .ok lists =>
      let nextResult : Option Cue :=
        match lists with
        | some (mainCueList :: _) =>
          match mainCueList.cues with
          | some cs =>
            match cs.findIdx? (fun cue => cue.uniqueID = selectedCue.id) with
            | some i =>
              if i < cs.length - 1 then (cs[i + 1]?).map normNext else none
            | none => none
          | none => none
        | _ => none
      match nextResult with
      | some r =>
        (r, { st1 with nextCueCache := some r, lastNextUpdate := now }, true)
      | none =>
        (endOfListCue,
          { st1 with nextCueCache := some endOfListCue
                     lastNextUpdate := now },
          true)
    | .error _ =>
      match st1.nextCueCache with
      | some c =>
        if now - st1.lastNextUpdate < hardCeilingMs then (c, st1, true)
        else (noNextCue, st1, true)
      | none => (noNextCue, st1, true)

/-- `QLabOSCClient.getNextCue()`. -/
def getNextCue (st : OSCClientCache) (now : Nat)
    (liveSel : Except Unit (Option SelReply))
    (liveLists : Except Unit (Option (List CueListRecord))) :
    Cue × OSCClientCache × Bool :=
  match st.nextCueCache with
  | some c =>
    if now - st.lastNextUpdate < cacheTimeout then (c, st, false)
    else getNextCueLive st now liveSel liveLists
  | none => getNextCueLive st now liveSel liveLists

/-! ## `QLabClientWrapper` commands and selection debounce

Each command resolves to a success boolean; `sendOk` stands for the
underlying `QLabOSCClient` command resolving `true` (the fire-and-forget
send succeeded).  Only the fields a command can touch are modelled: the
embedded client's per-cue-info cache and the debounce bookkeeping.
(`updateCueInfo`, scheduled via `setImmediate` by some commands, runs
later and refreshes `QLabClientWrapper`'s own snapshot fields; it never
touches the fields below.) -/

/-- The `QLabClientWrapper` fields involved in command-side cache
invalidation and selection debouncing. -/
structure WrapperState where
  cache : OSCClientCache
  lastSelectedCueId : Option String
  lastSelectionTime : Nat
deriving DecidableEq, Repr

/-- `this.lastSelectedCueId = null; this.lastSelectionTime = 0` on a fresh
wrapper. -/
def wrapperInit : WrapperState :=
  { cache := emptyCache, lastSelectedCueId := none, lastSelectionTime := 0 }

/-- `QLabClientWrapper.play()`: `this.client.invalidateCache()` then
`await this.client.go()`. -/
def wrapperPlay (st : WrapperState) (sendOk : Bool) : Bool × WrapperState :=
  (sendOk, { st with cache := invalidateCache st.cache })

/-- `QLabClientWrapper.stop()`: invalidates, then `this.client.stop()`. -/
def wrapperStop (st : WrapperState) (sendOk : Bool) : Bool × WrapperState :=
  (sendOk, { st with cache := invalidateCache st.cache })

/-- `QLabClientWrapper.next()`: invalidates, then `this.client.next()`. -/
def wrapperNext (st : WrapperState) (sendOk : Bool) : Bool × WrapperState :=
  (sendOk, { st with cache := invalidateCache st.cache })

/-- `QLabClientWrapper.previous()`: invalidates, then
`this.client.previous()`. -/
def wrapperPrevious (st : WrapperState) (sendOk : Bool) :
    Bool × WrapperState :=
  (sendOk, { st with cache := invalidateCache st.cache })

/-- `QLabClientWrapper.panic()`: `return await this.client.panic()` — no
cache invalidation, no state change. -/
def wrapperPanic (st : WrapperState) (sendOk : Bool) : Bool × WrapperState :=
  (sendOk, st)

/-- `QLabClientWrapper.reset()`: `await this.client.reset()` and, on
success, schedule `updateCueInfo` — no cache invalidation. -/
def wrapperReset (st : WrapperState) (sendOk : Bool) : Bool × WrapperState :=
  (sendOk, st)

/-- The selection debounce window: 500 milliseconds. -/
def debounceMs : Nat := 500

/-- `QLabClientWrapper.skipToCue(cueId)` at time `now`: when
`this.lastSelectedCueId === cueId && (now - this.lastSelectionTime) < 500`
it returns `true` without sending; otherwise it sends the `select_id`
message (fire-and-forget) and, when the send resolved, records
`lastSelectedCueId`/`lastSelectionTime`; a rejected send is caught and
returns `false`.  The middle component records whether an outbound send
was issued. -/
def skipToCue (st : WrapperState) (cueId : String) (now : Nat)
    (sendOk : Bool) : Bool × Bool × WrapperState :=
  if st.lastSelectedCueId = some cueId ∧
      now - st.lastSelectionTime < debounceMs then
    (true, false, st)
  else if sendOk then
    (true, true,
      { st with lastSelectedCueId := some cueId, lastSelectionTime := now })
  else (false, true, st)

/-! ## `QLabOSCClient.setActiveWorkspace` -/

/-- The messages `setActiveWorkspace` can send, paired below with their
`expectReply` flag. -/
inductive WsMsg
  | connect (wid : String)
  | updates
  | cueLists (wid : String)
deriving DecidableEq, Repr

/-- `QLabOSCClient.setActiveWorkspace(workspaceId)`.  It first assigns
`this.currentWorkspaceId = workspaceId` (before any send, and never
reverted).  For a truthy id the try-body awaits, in order:
`/workspace/{id}/connect` expecting a reply, `/updates [1]` with
`expectReply = false`, and `/workspace/{id}/cueLists` expecting a reply; a
rejection of any of them jumps to the catch-block, which returns `false`.
`o1 o2 o3` are the three awaits' outcomes.  Returns the boolean result,
the final `currentWorkspaceId`, and the sends issued, each with its
`expectReply` flag. -/
def setActiveWorkspace (wid : String) (o1 o2 o3 : Bool) :
    Bool × Option String × List (WsMsg × Bool) :=
  let cur : Option String := some wid
  if jsTruthyStr (some wid) then
    if o1 = false then (false, cur, [(.connect wid, true)])
    else if o2 = false then
      (false, cur, [(.connect wid, true), (.updates, false)])
    else if o3 = false then
      (false, cur,
        [(.connect wid, true), (.updates, false), (.cueLists wid, true)])
    else
      (true, cur,
        [(.connect wid, true), (.updates, false), (.cueLists wid, true)])
  else (true, cur, [])

/-! ## Session registry and the socket disconnect grace period -/

/-- One `clientConnections` entry.  (The per-session cue snapshot fields
`selectedCue`/`nextCue` are carried along unchanged by every operation
modelled here and are omitted.) -/
structure ClientData where
  workspaceId : Option String
deriving DecidableEq, Repr

/-- Combined server state for the session-disconnect and route logic. -/
structure ServerState where
  clientConnections : List (String × ClientData)
  pool : PoolState
deriving DecidableEq, Repr

/-- The two 30-second timers scheduled by the `socket.on('disconnect')`
handler, firing at expiry in scheduling order, on a state unchanged since
disconnect (no reconnection).  `clientData` is captured at disconnect
time.  The first timer (scheduled only when `clientData.workspaceId` is
truthy) calls `removeClientFromWorkspace` only when
`!clientConnections.has(socket.id)`; the second deletes the registry entry
when `clientConnections.has(socket.id)`. -/
def graceExpiry (s : ServerState) (sid : String) : ServerState :=
  let clientData := jsMapGet s.clientConnections sid
  let s1 : ServerState :=
    match clientData with
    | some cd =>
      if jsTruthyStr cd.workspaceId then
        if jsMapHas s.clientConnections sid then s
        else
          match cd.workspaceId with
          | some wid => { s with pool := removeClientFromWorkspace s.pool sid wid }
          | none => s
      else s
    | none => s
  if jsMapHas s1.clientConnections sid then
    { s1 with clientConnections := jsMapDelete s1.clientConnections sid }
  else s1

/-! ## `GET /api/cues` -/

/-- A JS value as read off an object property: a number, or `undefined`
when the property was never assigned. -/
inductive JsVal
  | undefined
  | num (n : Int)
deriving DecidableEq, Repr

/-- Property access on a `workspacePool` entry object.  The entries built
by `getOrCreateWorkspaceConnection` and the `/api/connect` routes assign
`client`, `refCount`, `clients` and `instanceInfo`; reading any other
property — in particular `refs` — yields `undefined`.  (Only numeric
properties are read this way; `client` is inspected separately and is
always truthy for a constructed entry.) -/
def poolEntryProp (e : PoolEntry) (f : String) : JsVal :=
  if f = "refCount" then .num e.refCount else .undefined

/-- JS `x > 0` where `x` may be `undefined` (`undefined > 0` is `false`
because the comparison goes through `NaN`). -/
def jsGtZero : JsVal → Bool
  | .undefined => false
  | .num n => decide (0 < n)

/-- `!clientData || !clientData.workspaceId`, negated: does the requesting
client have a truthy workspace attachment in `clientConnections`? -/
def hasAttachment (s : ServerState) (cid : String) : Bool :=
  match jsMapGet s.clientConnections cid with
  | some cd => jsTruthyStr cd.workspaceId
  | none => false

/-- The tail of the `/api/cues` handler: `getWorkspaceClient` followed by
`client.getAllCues()`; an absent pool entry answers `{cues: []}`.
`fetched` stands for the awaited `getAllCues()` result. -/
def serveCues (s : ServerState) (wid : String) (fetched : List Cue) :
    List Cue × ServerState :=
  match poolLookup s.pool wid with
  | none => ([], s)
  | some _ => (fetched, s)

/-- `app.get('/api/cues')`.  When the requesting client has no workspace
attachment the handler scans `workspacePool` for an entry with
`connection.client && connection.refs > 0` and attaches the client to the
first hit (creating registry data and calling `addClientToWorkspace`);
failing that it answers `{cues: []}`.  Returns the `cues` array of the
response and the updated state. -/
def apiCues (s : ServerState) (cid : String) (fetched : List Cue) :
    List Cue × ServerState :=
  if hasAttachment s cid then
    match jsMapGet s.clientConnections cid with
    | some cd =>
      match cd.workspaceId with
      | some wid => serveCues s wid fetched
      | none => ([], s)
    | none => ([], s)
  else
    match s.pool.workspacePool.find?
        (fun e => jsGtZero (poolEntryProp e.2 "refs")) with
    | some (wid, _) =>
      let s1 : ServerState :=
        { clientConnections :=
            jsMapSet s.clientConnections cid ⟨some wid⟩
          pool := addClientToWorkspace s.pool cid wid }
      serveCues s1 wid fetched
    | none => ([], s)

/-! ## Helper lemmas -/

/-- No reply settles anything once the callback map is empty. -/
theorem drainReplies_nil (n : Nat) : drainReplies [] n = [] := by
  cases n <;> simp [drainReplies, handleReply]

/-- With duplicate-free keys, draining as many replies as there are
entries settles exactly the stored callbacks in map order. -/
theorem drainReplies_nodup (m : List (Nat × PendingId))
    (h : (m.map Prod.fst).Nodup) :
    drainReplies m m.length = m.map Prod.snd := by
  induction m with
  | nil => simp [drainReplies]
  | cons hd t ih =>
    obtain ⟨k, p⟩ := hd
    simp only [List.map_cons, List.nodup_cons] at h
    have hfilter : t.filter (fun q => !decide (q.1 = k)) = t := by
      apply List.filter_eq_self.mpr
      intro a ha
      simp only [Bool.not_eq_true', decide_eq_false_iff_not]
      intro hk
      exact h.1 (hk ▸ List.mem_map_of_mem Prod.fst ha)
    simp only [List.length_cons, drainReplies, handleReply, jsMapDelete,
      List.filter_cons]
    simp [hfilter, ih h.2]

/-- After `n` reply-expecting sends by the single client `c` from the
initial transport state: the counter reads `n`, and the shared map and the
pending log hold the calls `⟨c, 1⟩ … ⟨c, n⟩` in send order. -/
theorem sendMany_invariant (c n : Nat) :
    (sendMany c n oscInit).counters c = n ∧
    (sendMany c n oscInit).callbacks =
      (List.range n).map (fun i => (i + 1, ⟨c, i + 1⟩)) ∧
    (sendMany c n oscInit).pendingLog =
      (List.range n).map (fun i => ⟨c, i + 1⟩) := by
  induction n with
  | zero => simp [sendMany, oscInit]
  | succ n ih =>
    obtain ⟨hc, hcb, hlog⟩ := ih
    have hnomem :
        ((List.range n).map (fun i => ((i + 1 : Nat), (⟨c, i + 1⟩ : PendingId)))).any
          (fun p => p.1 = n + 1) = false := by
      simp only [List.any_eq_false, List.mem_map, decide_eq_true_eq]
      rintro p ⟨i, hi, rfl⟩
      simp only [List.mem_range] at hi
      omega
    refine ⟨?_, ?_, ?_⟩
    · simp [sendMany, clientSend, hc]
    · simp only [sendMany, clientSend, hc, hcb, jsMapSet, hnomem,
        Bool.false_eq_true, if_false, List.range_succ, List.map_append,
        List.map_cons, List.map_nil]
    · simp [sendMany, clientSend, hc, hlog, List.range_succ]

/-- `getSelectedCue` reads and writes only the selected-cue cache fields:
the next-cue and active-cue tiers pass through unchanged. -/
theorem getSelectedCue_preserves_others (st : OSCClientCache) (now : Nat)
    (live : Except Unit (Option SelReply)) :
    ((getSelectedCue st now live).2.1).nextCueCache = st.nextCueCache ∧
    ((getSelectedCue st now live).2.1).lastNextUpdate = st.lastNextUpdate ∧
    ((getSelectedCue st now live).2.1).activeCueCache = st.activeCueCache ∧
    ((getSelectedCue st now live).2.1).lastActiveUpdate =
      st.lastActiveUpdate := by
  unfold getSelectedCue getSelectedCueLive
  rcases live with e | r <;>
    cases hsc : st.selectedCueCache <;>
      simp [hsc] <;> (repeat' split) <;> simp

/-! ## Claim theorems -/

/-- C1, counterexample.  Two reply-expecting sends through the shared
transport by two different `QLabOSCClient` instances (instance 0 first,
then instance 1), followed by an in-order reply: the reply settles
instance 1's call, yet the call registered earliest among those still
pending is instance 0's — strict FIFO fails across instances, so the claim
as stated is false. -/
theorem crossClientReplyBreaksFifo :
    (clientSend (clientSend oscInit 0) 1).pendingLog =
      [⟨0, 1⟩, ⟨1, 1⟩] ∧
    (handleReply (clientSend (clientSend oscInit 0) 1).callbacks).2 =
      some ⟨1, 1⟩ ∧
    (⟨1, 1⟩ : PendingId) ≠ ⟨0, 1⟩ := by
  decide

/-- C1, amended.  For every sequence of `n` reply-expecting sends issued
through a single `QLabOSCClient` instance followed by `n` replies arriving
in the same order, the replies settle exactly the pending calls in the
order the sends were issued (strict FIFO). -/
theorem singleClientFifoCorrelation (c n : Nat) :
    drainReplies (sendMany c n oscInit).callbacks n =
      (sendMany c n oscInit).pendingLog := by
  obtain ⟨-, hcb, hlog⟩ := sendMany_invariant c n
  have hlen :
      ((List.range n).map
        (fun i => ((i + 1 : Nat), (⟨c, i + 1⟩ : PendingId)))).length = n := by
    simp
  have hnodup :
      (((List.range n).map
        (fun i => ((i + 1 : Nat), (⟨c, i + 1⟩ : PendingId)))).map
          Prod.fst).Nodup := by
    simp only [List.map_map]
    exact (List.nodup_range n).map (fun i j h => by
      simpa using h)
  rw [hcb, hlog]
  have := drainReplies_nodup
    ((List.range n).map (fun i => ((i + 1 : Nat), (⟨c, i + 1⟩ : PendingId))))
    hnodup
  rw [hlen] at this
  rw [this, List.map_map]
  rfl

/-- C9.  Instance 0 sends first (registering callback id 1 in the shared
map); instance 1's own counter also yields callback id 1, so its
registration hits a key already held by instance 0's pending call and
replaces the callback in place.  Thereafter no sequence of inbound replies
ever settles instance 0's call; its own 10-second timeout handler, firing
in that state, is what rejects it. -/
theorem sharedCallbackMapCollision :
    jsMapGet (clientSend oscInit 0).callbacks 1 = some ⟨0, 1⟩ ∧
    (clientSend (clientSend oscInit 0) 1).counters 1 = 1 ∧
    (clientSend (clientSend oscInit 0) 1).callbacks = [(1, ⟨1, 1⟩)] ∧
    (∀ n, (⟨0, 1⟩ : PendingId) ∉
      drainReplies (clientSend (clientSend oscInit 0) 1).callbacks n) ∧
    timeoutFire (clientSend (clientSend oscInit 0) 1).callbacks 1 ⟨0, 1⟩ =
      ([], some ⟨0, 1⟩) := by
  refine ⟨by decide, by decide, by decide, ?_, by decide⟩
  intro n
  have hcb : (clientSend (clientSend oscInit 0) 1).callbacks =
      [(1, ⟨1, 1⟩)] := by decide
  rw [hcb]
  cases n with
  | zero => simp [drainReplies]
  | succ m =>
    simp [drainReplies, handleReply, jsMapDelete, drainReplies_nil]

/-- C3 (code bug).  Failing input: session `"s1"` is the sole session
attached to workspace `"w"` (pool refCount 1), disconnects, and never
reconnects.  When the 30-second grace expires, the code deletes the
session registry entry but leaves the pool untouched: the first timer's
guard `!clientConnections.has(id)` is still false when it fires, because
the entry is only deleted by the second timer, so
`removeClientFromWorkspace` never runs and the workspace attachment
(refCount 1) leaks — contrary to the claim that both are released. -/
theorem graceExpiryLeaksAttachment :
    graceExpiry ⟨[("s1", ⟨some "w"⟩)], attach poolInit "s1" "w"⟩ "s1" =
      ⟨[], attach poolInit "s1" "w"⟩ ∧
    poolLookup (attach poolInit "s1" "w") "w" = some ⟨0, 1, ["s1"]⟩ := by
  decide

/-- C4, counterexample.  `panic` is a state-changing command, yet
`QLabClientWrapper.panic()` does not invalidate the per-cue-info tier: the
wrapper state (with a selected-cue cache stamped at 5000) is returned
unchanged, and a `getSelectedCue` 500 ms later serves the cached value
without attempting a live fetch — the claim's "next call performs a live
fetch" is false. -/
theorem panicLeavesCueCacheServed :
    wrapperPanic
      ⟨⟨some ⟨some "c1", "5", "Song", "Audio"⟩, none, none, 5000, 0, 0⟩,
        none, 0⟩ true =
      (true,
        ⟨⟨some ⟨some "c1", "5", "Song", "Audio"⟩, none, none, 5000, 0, 0⟩,
          none, 0⟩) ∧
    getSelectedCue
      ⟨some ⟨some "c1", "5", "Song", "Audio"⟩, none, none, 5000, 0, 0⟩
      5500 (.ok none) =
      (⟨some "c1", "5", "Song", "Audio"⟩,
        ⟨some ⟨some "c1", "5", "Song", "Audio"⟩, none, none, 5000, 0, 0⟩,
        false) := by
  decide

/-- C5, counterexample.  `getActiveCue` with a cached active cue 5000 ms
old (younger than the 10-second ceiling) and a failing live query returns
the fixed `Not available` placeholder, not the cached value: its
catch-block never consults the cache, so the claim is false for
`getActiveCue`. -/
theorem activeCueFailureIgnoresCache :
    getActiveCue
      ⟨none, some ⟨some "c1", "5", "Song", "Audio"⟩, none, 0, 1000, 0⟩
      6000 (.error ()) =
      (notAvailableCue,
        ⟨none, some ⟨some "c1", "5", "Song", "Audio"⟩, none, 0, 1000, 0⟩,
        true) ∧
    notAvailableCue ≠ ⟨some "c1", "5", "Song", "Audio"⟩ := by
  decide

/-- C6, counterexample.  `setActiveWorkspace("W")` whose first round-trip
(the connect message) fails returns `false`, yet the client's
`currentWorkspaceId` has already been set to `"W"` — the assignment
happens before the first send and is never reverted — so the observable
active-workspace state *is* left changed to the new id by a failed call,
contradicting the claim. -/
theorem setActiveWorkspaceFailureKeepsNewId :
    setActiveWorkspace "W" false true true =
      (false, some "W", [(.connect "W", true)]) ∧
    (some "W" : Option String) ≠ none := by
  decide

/-- C7, counterexample.  When nothing is selected (the selected-cue query
succeeds but returns no cue, so the selected cue's `id` is falsy),
`getNextCue` returns the `{number: '--', name: 'No selection'}`
placeholder — not the claimed `End of list` placeholder. -/
theorem nextCueNoSelectionPlaceholder :
    (getNextCue emptyCache 0 (.ok none) (.ok (some [⟨some []⟩]))).1 =
      noSelectionCue ∧
    noSelectionCue ≠ endOfListCue ∧
    noSelectionCue.name = "No selection" ∧
    endOfListCue.name = "End of list" := by
  decide

/-- Attaching to a pool holding exactly the one entry for `wid` touches no
other state: the refCount rises by one and the client joins the set. -/
theorem attach_singleton (wid cid : String) (cl : Nat) (r : Int)
    (L : List String) (k : Nat) (R : List Nat) :
    attach ⟨[(wid, ⟨cl, r, L⟩)], k, R⟩ cid wid =
      ⟨[(wid, ⟨cl, r + 1, if cid ∈ L then L else L ++ [cid]⟩)], k, R⟩ := by
  simp [attach, getOrCreateWorkspaceConnection, poolLookup, jsMapGet,
    addClientToWorkspace, List.find?]

/-- Attaching a whole list of sessions to the singleton pool adds their
count to the refCount and constructs nothing. -/
theorem attachList_singleton (wid : String) :
    ∀ (cids : List String) (cl : Nat) (r : Int) (L : List String)
      (k : Nat) (R : List Nat),
    ∃ L', attachList ⟨[(wid, ⟨cl, r, L⟩)], k, R⟩ wid cids =
        ⟨[(wid, ⟨cl, r + cids.length, L'⟩)], k, R⟩ := by
  intro cids
  induction cids with
  | nil =>
    intro cl r L k R
    exact ⟨L, by simp [attachList]⟩
  | cons c t ih =>
    intro cl r L k R
    obtain ⟨L', h⟩ := ih cl (r + 1) (if c ∈ L then L else L ++ [c]) k R
    refine ⟨L', ?_⟩
    rw [attachList, attach_singleton, h]
    have hlen : (((c :: t).length : Nat) : Int) = (t.length : Int) + 1 := by
      simp
    rw [hlen]
    have harith : r + 1 + (t.length : Int) = r + ((t.length : Int) + 1) := by
      ring
    rw [harith]

/-- Detaching from the singleton pool: the entry survives with a
decremented count while the count stays positive, and is deleted (its
wrapper released) when the count reaches zero. -/
theorem removeClient_singleton (wid cid : String) (cl : Nat) (r : Int)
    (L : List String) (k : Nat) (R : List Nat) :
    removeClientFromWorkspace ⟨[(wid, ⟨cl, r, L⟩)], k, R⟩ cid wid =
      if r - 1 ≤ 0 then ⟨[], k, R ++ [cl]⟩
      else ⟨[(wid, ⟨cl, r - 1, L.filter (fun x => x ≠ cid)⟩)], k, R⟩ := by
  have hfind : poolLookup ⟨[(wid, ⟨cl, r, L⟩)], k, R⟩ wid =
      some ⟨cl, r, L⟩ := by
    simp [poolLookup, jsMapGet, List.find?]
  simp only [removeClientFromWorkspace, hfind]
  by_cases hle : r - 1 ≤ 0
  · rw [if_pos hle, if_pos hle]
    simp
  · rw [if_neg hle, if_neg hle]
    simp

/-- Detaching fewer sessions than the refCount from the singleton pool
keeps the entry alive with the difference as its count. -/
theorem detachList_singleton (wid : String) :
    ∀ (cids : List String) (cl : Nat) (r : Int) (L : List String)
      (k : Nat) (R : List Nat),
    (cids.length : Int) < r →
    ∃ L', detachList ⟨[(wid, ⟨cl, r, L⟩)], k, R⟩ wid cids =
        ⟨[(wid, ⟨cl, r - cids.length, L'⟩)], k, R⟩ := by
  intro cids
  induction cids with
  | nil =>
    intro cl r L k R _
    exact ⟨L, by simp [detachList]⟩
  | cons c t ih =>
    intro cl r L k R hlt
    simp only [List.length_cons] at hlt
    obtain ⟨L', h⟩ := ih cl (r - 1) (L.filter (fun x => x ≠ c)) k R
      (by push_cast at hlt ⊢; omega)
    refine ⟨L', ?_⟩
    rw [detachList, removeClient_singleton,
      if_neg (by push_cast at hlt; omega), h]
    have hlen : (((c :: t).length : Nat) : Int) = (t.length : Int) + 1 := by
      simp
    rw [hlen]
    have harith : r - 1 - (t.length : Int) = r - ((t.length : Int) + 1) := by
      ring
    rw [harith]

/-- C2.  For every workspace id and every K = `rest.length + 1` ≥ 1
sessions: attaching all K from a fresh server constructs exactly one
`QLabClientWrapper` (number 0) and one pool entry with refCount K;
detaching the K−1 sessions of `rest` leaves the entry alive (refCount 1,
nothing released); detaching the last session `sid` removes the entry from
the pool and releases its wrapper. -/
theorem poolRefcountLifecycle (wid sid : String) (rest : List String) :
    (attachList poolInit wid (sid :: rest)).constructed = 1 ∧
    (poolLookup (attachList poolInit wid (sid :: rest)) wid).map
      PoolEntry.refCount = some (1 + rest.length) ∧
    (poolLookup (attachList poolInit wid (sid :: rest)) wid).map
      PoolEntry.client = some 0 ∧
    (attachList poolInit wid (sid :: rest)).released = [] ∧
    (poolLookup (detachList (attachList poolInit wid (sid :: rest)) wid rest)
      wid).map PoolEntry.refCount = some 1 ∧
    (detachList (attachList poolInit wid (sid :: rest)) wid rest).released
      = [] ∧
    (detachList (attachList poolInit wid (sid :: rest)) wid rest).constructed
      = 1 ∧
    poolLookup (removeClientFromWorkspace
      (detachList (attachList poolInit wid (sid :: rest)) wid rest) sid wid)
      wid = none ∧
    (removeClientFromWorkspace
      (detachList (attachList poolInit wid (sid :: rest)) wid rest) sid wid).released
      = [0] ∧
    (removeClientFromWorkspace
      (detachList (attachList poolInit wid (sid :: rest)) wid rest) sid wid).constructed
      = 1 := by
  have h1 : attach poolInit sid wid = ⟨[(wid, ⟨0, 1, [sid]⟩)], 1, []⟩ := by
    simp [attach, poolInit, getOrCreateWorkspaceConnection, poolLookup,
      jsMapGet, addClientToWorkspace]
  obtain ⟨L1, hL1⟩ := attachList_singleton wid rest 0 1 [sid] 1 []
  have hs1 : attachList poolInit wid (sid :: rest) =
      ⟨[(wid, ⟨0, 1 + rest.length, L1⟩)], 1, []⟩ := by
    rw [attachList, h1, hL1]
  obtain ⟨L2, hL2⟩ := detachList_singleton wid rest 0 (1 + rest.length) L1 1 []
    (by omega)
  have hr : (1 + (rest.length : Int)) - rest.length = 1 := by omega
  rw [hr] at hL2
  have hs2 : detachList (attachList poolInit wid (sid :: rest)) wid rest =
      ⟨[(wid, ⟨0, 1, L2⟩)], 1, []⟩ := by
    rw [hs1, hL2]
  have hs3 : removeClientFromWorkspace
      (detachList (attachList poolInit wid (sid :: rest)) wid rest) sid wid =
      ⟨[], 1, [0]⟩ := by
    rw [hs2, removeClient_singleton, if_pos (by omega)]
    rfl
  refine ⟨?_, ?_, ?_, ?_, ?_, ?_, ?_, ?_, ?_, ?_⟩
  · rw [hs1]
  · rw [hs1]; simp [poolLookup, jsMapGet, List.find?]
  · rw [hs1]; simp [poolLookup, jsMapGet, List.find?]
  · rw [hs1]
  · rw [hs2]; simp [poolLookup, jsMapGet, List.find?]
  · rw [hs2]
  · rw [hs2]
  · rw [hs3]; simp [poolLookup, jsMapGet, List.find?]
  · rw [hs3]
  · rw [hs3]

/-- C4, amended.  `play` (go), `stop`, `next` and `previous` invalidate
the per-cue-info tier immediately, after which each of the three getters
is forced to a live fetch; `panic`, `reset` and `selectCue`/`skipToCue` do
not invalidate the tier (the wrapper state, respectively its cache, is
left unchanged). -/
theorem commandCacheInvalidation (st : WrapperState) (ok : Bool)
    (cueId : String) (now n2 : Nat)
    (liveS : Except Unit (Option SelReply))
    (liveA : Except Unit (Option (List CueRecord)))
    (liveL : Except Unit (Option (List CueListRecord))) :
    (wrapperPlay st ok).2.cache = invalidateCache st.cache ∧
    (wrapperStop st ok).2.cache = invalidateCache st.cache ∧
    (wrapperNext st ok).2.cache = invalidateCache st.cache ∧
    (wrapperPrevious st ok).2.cache = invalidateCache st.cache ∧
    (getSelectedCue (invalidateCache st.cache) n2 liveS).2.2 = true ∧
    (getActiveCue (invalidateCache st.cache) n2 liveA).2.2 = true ∧
    (getNextCue (invalidateCache st.cache) n2 liveS liveL).2.2 = true ∧
    (wrapperPanic st ok).2 = st ∧
    (wrapperReset st ok).2 = st ∧
    (skipToCue st cueId now ok).2.2.cache = st.cache := by
  refine ⟨rfl, rfl, rfl, rfl, ?_, ?_, ?_, rfl, rfl, ?_⟩
  · rcases liveS with e | r <;>
      simp [getSelectedCue, getSelectedCueLive, invalidateCache]
  · rcases liveA with e | r <;>
      simp [getActiveCue, getActiveCueLive, invalidateCache]
  · rcases liveL with e | r <;>
      simp [getNextCue, getNextCueLive, invalidateCache] <;>
        (repeat' split) <;> simp_all
  · simp only [skipToCue]
    split
    · rfl
    · split <;> rfl

/-- C5, amended.  Stale fallback holds for `getSelectedCue` and
`getNextCue`: on a failed live query a cached value younger than the
10-second hard ceiling is served (no error surfaced), and the neutral
placeholder otherwise (`No selection` / `No next cue`; for `getNextCue`
the failing round-trip is the cue-list fetch, reached when the selected
cue's id is truthy).  `getActiveCue`, however, answers every live-query
failure with the fixed `Not available` placeholder and never consults its
cache. -/
theorem staleFallbackByGetter (st : OSCClientCache) (now : Nat) (c : Cue)
    (liveSel : Except Unit (Option SelReply)) :
    (st.selectedCueCache = some c →
      cacheTimeout ≤ now - st.lastSelectedUpdate →
      now - st.lastSelectedUpdate < hardCeilingMs →
      getSelectedCue st now (.error ()) = (c, st, true)) ∧
    (st.selectedCueCache = some c →
      hardCeilingMs ≤ now - st.lastSelectedUpdate →
      (getSelectedCue st now (.error ())).1 = noSelectionCue) ∧
    (st.selectedCueCache = none →
      (getSelectedCue st now (.error ())).1 = noSelectionCue) ∧
    (st.nextCueCache = some c →
      cacheTimeout ≤ now - st.lastNextUpdate →
      now - st.lastNextUpdate < hardCeilingMs →
      jsTruthyStr (getSelectedCue st now liveSel).1.id = true →
      (getNextCue st now liveSel (.error ())).1 = c) ∧
    (st.nextCueCache = some c →
      hardCeilingMs ≤ now - st.lastNextUpdate →
      jsTruthyStr (getSelectedCue st now liveSel).1.id = true →
      (getNextCue st now liveSel (.error ())).1 = noNextCue) ∧
    (st.nextCueCache = none →
      jsTruthyStr (getSelectedCue st now liveSel).1.id = true →
      (getNextCue st now liveSel (.error ())).1 = noNextCue) ∧
    (st.activeCueCache = none ∨ cacheTimeout ≤ now - st.lastActiveUpdate →
      (getActiveCue st now (.error ())).1 = notAvailableCue) := by
  have hctle : cacheTimeout ≤ hardCeilingMs := by
    norm_num [cacheTimeout, hardCeilingMs]
  obtain ⟨hn, hlu, -, -⟩ := getSelectedCue_preserves_others st now liveSel
  refine ⟨?_, ?_, ?_, ?_, ?_, ?_, ?_⟩
  · intro h1 h2 h3
    simp only [getSelectedCue, h1]
    rw [if_neg (Nat.not_lt.mpr h2)]
    simp only [getSelectedCueLive, h1]
    rw [if_pos h3]
  · intro h1 h2
    simp only [getSelectedCue, h1]
    rw [if_neg (Nat.not_lt.mpr (le_trans hctle h2))]
    simp only [getSelectedCueLive, h1]
    rw [if_neg (Nat.not_lt.mpr h2)]
  · intro h1
    simp [getSelectedCue, getSelectedCueLive, h1]
  · intro h1 h2 h3 hsel
    simp only [getNextCue, h1]
    rw [if_neg (Nat.not_lt.mpr h2)]
    simp only [getNextCueLive, hsel]
    rw [if_neg (by simp)]
    simp only [hn, h1, hlu]
    rw [if_pos h3]
  · intro h1 h2 hsel
    simp only [getNextCue, h1]
    rw [if_neg (Nat.not_lt.mpr (le_trans hctle h2))]
    simp only [getNextCueLive, hsel]
    rw [if_neg (by simp)]
    simp only [hn, h1, hlu]
    rw [if_neg (Nat.not_lt.mpr h2)]
  · intro h1 hsel
    simp only [getNextCue, h1, getNextCueLive, hsel]
    rw [if_neg (by simp)]
    simp only [hn, h1]
  · intro h1
    rcases h1 with h1 | h1
    · simp [getActiveCue, getActiveCueLive, h1]
    · cases hac : st.activeCueCache with
      | none => simp [getActiveCue, getActiveCueLive, hac]
      | some a =>
        simp only [getActiveCue, hac]
        rw [if_neg (Nat.not_lt.mpr h1)]
        simp [getActiveCueLive]

/-- C5, witness.  A state whose selected-cue and active-cue caches are
2000 ms old: the failed selected-cue query serves the cache, while the
failed active-cue query yields the `Not available` placeholder. -/
theorem staleFallbackByGetterWitness :
    getSelectedCue
      ⟨some ⟨some "c1", "5", "Song", "Audio"⟩,
        some ⟨some "c1", "5", "Song", "Audio"⟩, none, 1000, 1000, 0⟩
      3000 (.error ()) =
      (⟨some "c1", "5", "Song", "Audio"⟩,
        ⟨some ⟨some "c1", "5", "Song", "Audio"⟩,
          some ⟨some "c1", "5", "Song", "Audio"⟩, none, 1000, 1000, 0⟩,
        true) ∧
    (getActiveCue
      ⟨some ⟨some "c1", "5", "Song", "Audio"⟩,
        some ⟨some "c1", "5", "Song", "Audio"⟩, none, 1000, 1000, 0⟩
      3000 (.error ())).1 = notAvailableCue :=
  ⟨(staleFallbackByGetter _ 3000 _ (.ok none)).1 rfl
      (by norm_num [cacheTimeout]) (by norm_num [hardCeilingMs]),
    (staleFallbackByGetter _ 3000 ⟨some "c1", "5", "Song", "Audio"⟩
        (.ok none)).2.2.2.2.2.2
      (Or.inr (by norm_num [cacheTimeout]))⟩

/-- C6, amended.  For a non-empty workspace id, `setActiveWorkspace`
issues up to three sequential sends — the connect message expecting a
reply, the `/updates` enable as fire-and-forget (no reply expected), and
the cue-list request expecting a reply — and returns `true` exactly when
all three awaits succeed; on any failure it returns `false`, but
`currentWorkspaceId` has already been set to the new id before the first
send and keeps that value. -/
theorem setActiveWorkspaceOutcome (wid : String) (o1 o2 o3 : Bool)
    (h : wid ≠ "") :
    ((setActiveWorkspace wid o1 o2 o3).1 = true ↔
      o1 = true ∧ o2 = true ∧ o3 = true) ∧
    (setActiveWorkspace wid o1 o2 o3).2.1 = some wid ∧
    (o1 = true → o2 = true → o3 = true →
      (setActiveWorkspace wid o1 o2 o3).2.2 =
        [(.connect wid, true), (.updates, false), (.cueLists wid, true)]) ∧
    (o1 = false →
      (setActiveWorkspace wid o1 o2 o3).2.2 = [(.connect wid, true)]) ∧
    (o1 = true → o2 = false →
      (setActiveWorkspace wid o1 o2 o3).2.2 =
        [(.connect wid, true), (.updates, false)]) ∧
    (o1 = true → o2 = true → o3 = false →
      (setActiveWorkspace wid o1 o2 o3).2.2 =
        [(.connect wid, true), (.updates, false), (.cueLists wid, true)]) := by
  cases o1 <;> cases o2 <;> cases o3 <;>
    simp [setActiveWorkspace, jsTruthyStr, h]

/-- C6, witness.  `setActiveWorkspace("W")` with all three steps
succeeding returns `true` and leaves `currentWorkspaceId = "W"`. -/
theorem setActiveWorkspaceOutcomeWitness :
    ("W" : String) ≠ "" ∧
    (setActiveWorkspace "W" true true true).1 = true ∧
    (setActiveWorkspace "W" true true true).2.1 = some "W" :=
  ⟨by decide,
    ((setActiveWorkspaceOutcome "W" true true true (by decide)).1).mpr
      ⟨rfl, rfl, rfl⟩,
    (setActiveWorkspaceOutcome "W" true true true (by decide)).2.1⟩

/-- C7, amended.  With a cold next-cue cache, `getNextCue` derives the
next cue by locating the selected cue's id in the first cue list's `cues`
and returning the normalized subsequent entry; when the selected cue is
the last item, or its id does not occur in the list, it returns the
`End of list` placeholder; when nothing is selected (falsy id) it returns
the `No selection` placeholder instead. -/
theorem getNextCueDerivation (st : OSCClientCache) (now : Nat)
    (liveSel : Except Unit (Option SelReply)) (cs : List CueRecord)
    (hnc : st.nextCueCache = none) :
    (jsTruthyStr (getSelectedCue st now liveSel).1.id = false →
      (getNextCue st now liveSel (.ok (some [⟨some cs⟩]))).1 =
        noSelectionCue) ∧
    (jsTruthyStr (getSelectedCue st now liveSel).1.id = true →
      (cs.findIdx?
          (fun cue => cue.uniqueID = (getSelectedCue st now liveSel).1.id) =
            none →
        (getNextCue st now liveSel (.ok (some [⟨some cs⟩]))).1 =
          endOfListCue) ∧
      (∀ i, cs.findIdx?
          (fun cue => cue.uniqueID = (getSelectedCue st now liveSel).1.id) =
            some i →
        (i + 1 = cs.length →
          (getNextCue st now liveSel (.ok (some [⟨some cs⟩]))).1 =
            endOfListCue) ∧
        (∀ cnext, cs[i + 1]? = some cnext →
          (getNextCue st now liveSel (.ok (some [⟨some cs⟩]))).1 =
            normNext cnext))) := by
  constructor
  · intro hfalse
    simp only [getNextCue, hnc, getNextCueLive, hfalse]
    simp
  · intro htrue
    constructor
    · intro hfind
      simp only [getNextCue, hnc, getNextCueLive, htrue]
      rw [if_neg (by simp)]
      simp only [hfind]
    · intro i hfind
      constructor
      · intro hlast
        simp only [getNextCue, hnc, getNextCueLive, htrue]
        rw [if_neg (by simp)]
        simp only [hfind]
        rw [if_neg (by omega)]
      · intro cnext hget
        have hlt : i + 1 < cs.length := by
          rcases List.getElem?_eq_some.mp hget with ⟨hb, -⟩
          exact hb
        simp only [getNextCue, hnc, getNextCueLive, htrue]
        rw [if_neg (by simp)]
        simp only [hfind]
        rw [if_pos (by omega), hget]
        rfl

/-- C7, witness.  A two-cue list with the first cue selected: `getNextCue`
returns the normalized second cue. -/
theorem getNextCueDerivationWitness :
    (getNextCue emptyCache 0
      (.ok (some (.obj ⟨some "a", some "1", some "One", none, none,
        some "audio"⟩)))
      (.ok (some [⟨some [⟨some "a", some "1", some "One", none, none,
          some "audio"⟩,
        ⟨some "b", some "2", some "Two", none, none, some "audio"⟩]⟩]))).1 =
      normNext ⟨some "b", some "2", some "Two", none, none, some "audio"⟩ :=
  (((getNextCueDerivation emptyCache 0
      (.ok (some (.obj ⟨some "a", some "1", some "One", none, none,
        some "audio"⟩)))
      [⟨some "a", some "1", some "One", none, none, some "audio"⟩,
        ⟨some "b", some "2", some "Two", none, none, some "audio"⟩]
      rfl).2 (by decide)).2 0 (by decide)).2
    ⟨some "b", some "2", some "Two", none, none, some "audio"⟩ rfl

/-- C8.  Selection debounce: from a state in which a first `skipToCue`
call actually sends, a second call with the same cue id issued within
500 ms sends nothing and still returns success, so the two calls produce
exactly one outbound send; a second call with a different cue id, or with
the same id once 500 ms have elapsed, sends again. -/
theorem skipToCueDebounce (st : WrapperState) (cueId cueId2 : String)
    (now1 now2 : Nat)
    (h1 : ¬(st.lastSelectedCueId = some cueId ∧
      now1 - st.lastSelectionTime < debounceMs)) :
    ((skipToCue st cueId now1 true).1 = true ∧
      (skipToCue st cueId now1 true).2.1 = true) ∧
    (now2 - now1 < debounceMs →
      skipToCue (skipToCue st cueId now1 true).2.2 cueId now2 true =
        (true, false, (skipToCue st cueId now1 true).2.2)) ∧
    (debounceMs ≤ now2 - now1 →
      (skipToCue (skipToCue st cueId now1 true).2.2 cueId now2 true).2.1 =
        true) ∧
    (cueId2 ≠ cueId →
      (skipToCue (skipToCue st cueId now1 true).2.2 cueId2 now2 true).2.1 =
        true) := by
  have hfirst : skipToCue st cueId now1 true =
      (true, true,
        { st with lastSelectedCueId := some cueId
                  lastSelectionTime := now1 }) := by
    simp only [skipToCue, if_neg h1]
    rfl
  refine ⟨by simp [hfirst], ?_, ?_, ?_⟩
  · intro h2
    rw [hfirst]
    simp [skipToCue, h2]
  · intro h2
    rw [hfirst]
    simp [skipToCue, Nat.not_lt.mpr h2]
  · intro h2
    rw [hfirst]
    simp [skipToCue, Ne.symm h2]

/-- C8, witness.  A fresh wrapper: `skipToCue("42")` at t=0 sends, a
second `skipToCue("42")` at t=300 is a no-op success. -/
theorem skipToCueDebounceWitness :
    ¬(wrapperInit.lastSelectedCueId = some "42" ∧
      0 - wrapperInit.lastSelectionTime < debounceMs) ∧
    (skipToCue wrapperInit "42" 0 true).2.1 = true ∧
    skipToCue (skipToCue wrapperInit "42" 0 true).2.2 "42" 300 true =
      (true, false, (skipToCue wrapperInit "42" 0 true).2.2) :=
  ⟨by decide,
    (skipToCueDebounce wrapperInit "42" "7" 0 300 (by decide)).1.2,
    (skipToCueDebounce wrapperInit "42" "7" 0 300 (by decide)).2.1
      (by decide)⟩

/-- C10.  For every server state and every client with no workspace
attachment, `GET /api/cues` answers `{cues: []}` and changes nothing —
the session-restoration scan tests `connection.refs`, a property no pool
entry defines (they define `refCount`), so its condition is
`undefined > 0`, which is false for every entry. -/
theorem apiCuesNoRestoration (s : ServerState) (cid : String)
    (fetched : List Cue) (h : hasAttachment s cid = false) :
    apiCues s cid fetched = ([], s) := by
  have hrefs : ∀ e : PoolEntry, jsGtZero (poolEntryProp e "refs") = false := by
    intro e
    simp [poolEntryProp, jsGtZero]
  have hfind : s.pool.workspacePool.find?
      (fun e => jsGtZero (poolEntryProp e.2 "refs")) = none := by
    apply List.find?_eq_none.mpr
    intro p _
    simp [hrefs p.2]
  simp only [apiCues, h, Bool.false_eq_true, if_false, hfind]

/-- C10, witness.  A pool holding an active entry for workspace `"w"` with
refCount 1 (> 0), and a client `"c"` with no attachment: the response is
the empty cue list and the state is unchanged. -/
theorem apiCuesNoRestorationWitness :
    hasAttachment ⟨[], attach poolInit "other" "w"⟩ "c" = false ∧
    (poolLookup (attach poolInit "other" "w") "w").map PoolEntry.refCount =
      some 1 ∧
    apiCues ⟨[], attach poolInit "other" "w"⟩ "c"
        [⟨none, "1", "X", "audio"⟩] =
      ([], ⟨[], attach poolInit "other" "w"⟩) :=
  ⟨by decide, by decide,
    apiCuesNoRestoration ⟨[], attach poolInit "other" "w"⟩ "c"
      [⟨none, "1", "X", "audio"⟩] (by decide)⟩

end QOnCommand
